import Mathlib

set_option maxRecDepth 16384

/-! Shallow embedding of the Crystal assistant (src/crystal.py): Python string
primitives, a backtracking matcher for the script's regular expressions, the
calendar arithmetic used by the reminder parser, the intent handlers, the
external-API wrappers, and the chat session loop, together with theorems about
the routed behaviour. -/

/-- Python `str.lower`, covering the ASCII and Latin-1 letters that occur in
the source's Portuguese text. -/
def pyToLower (c : Char) : Char :=
  if 'A' ≤ c ∧ c ≤ 'Z' then Char.ofNat (c.toNat + 32)
  else if 'À' ≤ c ∧ c ≤ 'Þ' ∧ c ≠ '×' then Char.ofNat (c.toNat + 32)
  else c

/-- Python `str.upper`, covering the ASCII and Latin-1 letters that occur in
the source's Portuguese text. -/
def pyToUpper (c : Char) : Char :=
  if 'a' ≤ c ∧ c ≤ 'z' then Char.ofNat (c.toNat - 32)
  else if 'à' ≤ c ∧ c ≤ 'þ' ∧ c ≠ '÷' then Char.ofNat (c.toNat - 32)
  else c

/-- Python `user_input.lower()`. -/
def pyLower (s : String) : String := ⟨s.data.map pyToLower⟩

/-- Python `s.upper()`. -/
def pyUpper (s : String) : String := ⟨s.data.map pyToUpper⟩

/-- Python `s.capitalize()`: first character uppercased, the rest lowercased. -/
def pyCapitalize (s : String) : String :=
  match s.data with
  | [] => ""
  | c :: cs => ⟨pyToUpper c :: cs.map pyToLower⟩

/-- Python whitespace as recognised by `str.strip()`. -/
def isPySpace (c : Char) : Bool :=
  c = ' ' || c = '\t' || c = '\n' || c = '\x0b' || c = '\x0c' || c = '\r'

/-- Python `s.strip()`. -/
def pyStrip (s : String) : String :=
  ⟨((s.data.dropWhile isPySpace).reverse.dropWhile isPySpace).reverse⟩

/-- Python substring test `a in b`. -/
def pyIn (a b : String) : Bool := decide (a.data <:+: b.data)

/-- Python `s.replace(old, new)` on character lists (all non-overlapping
occurrences, left to right; the source never calls it with an empty `old`).
The `fuel` argument, initialised to the input length, only makes the
recursion structural: each step consumes at least one character. -/
def replaceGo (old new : List Char) : Nat → List Char → List Char
  | _, [] => []
  | 0, s => s
  | fuel + 1, c :: rest =>
    if old ≠ [] && old.isPrefixOf (c :: rest) then
      new ++ replaceGo old new fuel (rest.drop (old.length - 1))
    else
      c :: replaceGo old new fuel rest

/-- Python `s.replace(old, new)` on character lists. -/
def replaceAllL (old new : List Char) (s : List Char) : List Char :=
  replaceGo old new s.length s

/-- Python `s.replace(old, new)`. -/
def replaceAll (s old new : String) : String := ⟨replaceAllL old.data new.data s.data⟩

/-- Python `s.split(sep)` for a nonempty separator, on character lists.
The `fuel` argument, initialised to the input length, only makes the
recursion structural: each step consumes at least one character. -/
def pySplitGo (sep : List Char) : Nat → List Char → List (List Char)
  | _, [] => [[]]
  | 0, s => [s]
  | fuel + 1, c :: rest =>
    if sep ≠ [] && sep.isPrefixOf (c :: rest) then
      [] :: pySplitGo sep fuel (rest.drop (sep.length - 1))
    else
      match pySplitGo sep fuel rest with
      | [] => [[c]]
      | x :: xs => (c :: x) :: xs

/-- Python `s.split(sep)` for a nonempty separator, on character lists. -/
def pySplitL (sep : List Char) (s : List Char) : List (List Char) :=
  pySplitGo sep s.length s

/-- Python `s.split(sep)`. -/
def pySplit (s sep : String) : List String := (pySplitL sep.data s.data).map String.mk

/-- Python `int(s)` for the digit-only strings the source feeds it (`ValueError`
is modelled as `none`). -/
def pyInt (s : String) : Option Nat :=
  if s.data ≠ [] && s.data.all Char.isDigit then
    some (s.data.foldl (fun a c => a * 10 + (c.toNat - 48)) 0)
  else none

/-- Python `f"{n:02d}"`. -/
def pad2 (n : Nat) : String := if n < 10 then "0" ++ toString n else toString n

/-- Python `", ".join(items)`. -/
def joinComma : List String → String
  | [] => ""
  | [x] => x
  | x :: y :: ys => x ++ ", " ++ joinComma (y :: ys)

/-- Captured groups of a regular-expression match: group index paired with the
captured text. -/
abbrev Caps := List (Nat × String)

/-- The regular-expression fragments needed for the source's patterns.
`lazyDots` is a non-greedy `(.+?)`, `greedyDots` a greedy `(.+)` (a dot does
not match a newline), `starSpace` is `' *'`, and `digits lo hi` is
`\d{lo,hi}` (greedy). -/
inductive RE where
  | lit (s : List Char)
  | digits (lo hi : Nat)
  | alt (a b : RE)
  | seq (a b : RE)
  | opt (r : RE)
  | lazyDots
  | greedyDots
  | starSpace
  | group (i : Nat) (r : RE)

/-- All ways a pattern can match a prefix of the input, as
(consumed, remaining, captures) triples, in the backtracking order of Python's
`re` engine: alternatives left to right, lazy repetition shortest first,
greedy repetition longest first. -/
def reRun : RE → List Char → List (List Char × List Char × Caps)
  | .lit p, s =>
    if p.isPrefixOf s then [(p, s.drop p.length, [])] else []
  | .digits lo hi, s =>
    let run := min hi (s.takeWhile Char.isDigit).length
    if run < lo then []
    else (List.range (run + 1 - lo)).map fun j =>
      (s.take (run - j), s.drop (run - j), [])
  | .alt a b, s => reRun a s ++ reRun b s
  | .seq a b, s =>
    (reRun a s).flatMap fun t =>
      (reRun b t.2.1).map fun u => (t.1 ++ u.1, u.2.1, t.2.2 ++ u.2.2)
  | .opt r, s => reRun r s ++ [([], s, [])]
  | .lazyDots, s =>
    let m := (s.takeWhile (· ≠ '\n')).length
    (List.range m).map fun j => (s.take (j + 1), s.drop (j + 1), [])
  | .greedyDots, s =>
    let m := (s.takeWhile (· ≠ '\n')).length
    (List.range m).map fun j => (s.take (m - j), s.drop (m - j), [])
  | .starSpace, s =>
    let m := (s.takeWhile (· = ' ')).length
    (List.range (m + 1)).map fun j => (s.take (m - j), s.drop (m - j), [])
  | .group i r, s =>
    (reRun r s).map fun t => (t.1, t.2.1, (i, String.mk t.1) :: t.2.2)

/-- Python `re.search`: try each start position left to right and return the
captures of the first (highest-priority) match found. -/
def reSearch (r : RE) : List Char → Option Caps
  | [] => (reRun r []).head?.map fun t => t.2.2
  | c :: rest =>
    match (reRun r (c :: rest)).head? with
    | some t => some t.2.2
    | none => reSearch r rest

/-- Python `match.group(i)` for a group that participated in the match,
defaulting to `""` (the source's mandatory groups are always nonempty). -/
def capGet (g : Caps) (i : Nat) : String :=
  ((g.find? fun p => p.1 == i).map fun p => p.2).getD ""

/-- Python `match.group(i)` for an optional group: `none` models Python's
`None` when the group did not participate in the match. -/
def capGetOpt (g : Caps) (i : Nat) : Option String :=
  (g.find? fun p => p.1 == i).map fun p => p.2

/-- Literal pattern from a string. -/
def reStr (s : String) : RE := .lit s.data

/-- Ordered alternation of a list of patterns (the head of the fold is the
highest-priority alternative, as in Python). -/
def reAlts : List RE → RE
  | [] => .lit []
  | [r] => r
  | r :: r' :: rs => .alt r (reAlts (r' :: rs))

/-- Sequencing of a list of patterns. -/
def reSeq : List RE → RE
  | [] => .lit []
  | [r] => r
  | r :: r' :: rs => .seq r (reSeq (r' :: rs))

/-- The reminder pattern of src/crystal.py line 181:
`(?:me lembre de|agendar|criar lembrete para) (.+?) (amanhã|hoje|quarta-feira|terça-feira|quinta-feira|sexta-feira|sábado|domingo|dia \d{1,2}/\d{1,2}(?:/\d{4})?) *(?:às|as)? *(\d{1,2}(?:h|\:\d{2})?) *(da manhã|da tarde|da noite|pm|am)?`. -/
def reminderRE : RE :=
  reSeq [
    reAlts [reStr "me lembre de", reStr "agendar", reStr "criar lembrete para"],
    reStr " ",
    .group 1 .lazyDots,
    reStr " ",
    .group 2 (reAlts [reStr "amanhã", reStr "hoje", reStr "quarta-feira",
      reStr "terça-feira", reStr "quinta-feira", reStr "sexta-feira",
      reStr "sábado", reStr "domingo",
      reSeq [reStr "dia ", .digits 1 2, reStr "/", .digits 1 2,
        .opt (reSeq [reStr "/", .digits 4 4])]]),
    .starSpace,
    .opt (reAlts [reStr "às", reStr "as"]),
    .starSpace,
    .group 3 (reSeq [.digits 1 2,
      .opt (reAlts [reStr "h", reSeq [reStr ":", .digits 2 2]])]),
    .starSpace,
    .opt (.group 4 (reAlts [reStr "da manhã", reStr "da tarde", reStr "da noite",
      reStr "pm", reStr "am"]))]

/-- The inner date pattern of src/crystal.py line 198:
`dia (\d{1,2}/\d{1,2}(?:/\d{4})?)`. -/
def diaRE : RE :=
  reSeq [reStr "dia ",
    .group 1 (reSeq [.digits 1 2, reStr "/", .digits 1 2,
      .opt (reSeq [reStr "/", .digits 4 4])])]

/-- The list-creation pattern of src/crystal.py line 155:
`criar lista de (tarefas|compras|(.+?)) com (.+)`. -/
def createListRE : RE :=
  reSeq [reStr "criar lista de ",
    .group 1 (reAlts [reStr "tarefas", reStr "compras", .group 2 .lazyDots]),
    reStr " com ",
    .group 3 .greedyDots]

/-- The list-addition pattern of src/crystal.py line 165:
`adicionar (.+?) à lista de (tarefas|compras|(.+))`. -/
def addListRE : RE :=
  reSeq [reStr "adicionar ",
    .group 1 .lazyDots,
    reStr " à lista de ",
    .group 2 (reAlts [reStr "tarefas", reStr "compras", .group 3 .greedyDots])]

/-- A proleptic-Gregorian calendar date, as Python's `datetime.date`. -/
structure Date where
  year : Nat
  month : Nat
  day : Nat
deriving DecidableEq

/-- Gregorian leap-year rule. -/
def isLeap (y : Nat) : Bool := (y % 4 == 0 && y % 100 != 0) || y % 400 == 0

/-- Number of days in a month. -/
def daysInMonth (y m : Nat) : Nat :=
  if m == 2 then (if isLeap y then 29 else 28)
  else if m == 4 || m == 6 || m == 9 || m == 11 then 30
  else 31

/-- Validity of day/month/year components, as checked by Python's
`datetime.date` and `datetime.datetime` constructors and by
`strptime("%d/%m/%Y")` (`MINYEAR = 1`, `MAXYEAR = 9999`). -/
def validDMY (d m y : Nat) : Bool :=
  1 ≤ y && y ≤ 9999 && 1 ≤ m && m ≤ 12 && 1 ≤ d && d ≤ daysInMonth y m

/-- Validity of a `Date`. -/
def validD (d : Date) : Bool := validDMY d.day d.month d.year

/-- Python `date + timedelta(days=1)`. -/
def nextDay (dt : Date) : Date :=
  if dt.day < daysInMonth dt.year dt.month then { dt with day := dt.day + 1 }
  else if dt.month < 12 then { dt with month := dt.month + 1, day := 1 }
  else { year := dt.year + 1, month := 1, day := 1 }

/-- Python `date + timedelta(days=n)`. -/
def addDays : Date → Nat → Date
  | d, 0 => d
  | d, n + 1 => addDays (nextDay d) n

/-- Python `date` comparison (lexicographic on year, month, day). -/
def dateLt (a b : Date) : Bool :=
  a.year < b.year || (a.year == b.year &&
    (a.month < b.month || (a.month == b.month && a.day < b.day)))

/-- Python `time` comparison `t₁ <= t₂` (lexicographic on hour, minute,
second). -/
def timeLe (a b : Nat × Nat × Nat) : Bool :=
  a.1 < b.1 || (a.1 == b.1 && (a.2.1 < b.2.1 ||
    (a.2.1 == b.2.1 && a.2.2 ≤ b.2.2)))

/-- Python `datetime` comparison `dt₁ < dt₂` (lexicographic on date then
time of day). -/
def dtLt (d₁ : Date) (t₁ : Nat × Nat × Nat) (d₂ : Date) (t₂ : Nat × Nat × Nat) : Bool :=
  dateLt d₁ d₂ || (d₁ == d₂ && (t₁.1 < t₂.1 || (t₁.1 == t₂.1 &&
    (t₁.2.1 < t₂.2.1 || (t₁.2.1 == t₂.2.1 && t₁.2.2 < t₂.2.2)))))

/-- Days before the first of each month within a year. -/
def daysBeforeMonth (leap : Bool) (m : Nat) : Nat :=
  ([0, 31, 59, 90, 120, 151, 181, 212, 243, 273, 304, 334].getD (m - 1) 0) +
    (if leap && m > 2 then 1 else 0)

/-- Proleptic-Gregorian ordinal of a date (0001-01-01 is day 1), as Python's
`date.toordinal`. -/
def toOrdinal (d : Date) : Nat :=
  let y := d.year - 1
  365 * y + y / 4 - y / 100 + y / 400 + daysBeforeMonth (isLeap d.year) d.month + d.day

/-- Python `date.weekday()`: Monday is 0, Sunday is 6. -/
def weekdayOf (d : Date) : Nat := (toOrdinal d + 6) % 7

/-- Python `date.replace(year=y)` (raises `ValueError`, modelled as `none`,
when the result is invalid, e.g. Feb 29 in a non-leap year). -/
def replaceYear (d : Date) (y : Nat) : Option Date :=
  if validDMY d.day d.month y then some { d with year := y } else none

/-- Python `datetime.strptime(s, "%d/%m/%Y").date()`: day and month of one or
two digits, a year of up to four digits, all components valid
(`ValueError` is modelled as `none`). -/
def parseDMY (s : String) : Option Date :=
  match pySplit s "/" with
  | [ds, ms, ys] =>
    if ds.data ≠ [] && ds.data.length ≤ 2 && ds.data.all Char.isDigit &&
       ms.data ≠ [] && ms.data.length ≤ 2 && ms.data.all Char.isDigit &&
       ys.data ≠ [] && ys.data.length ≤ 4 && ys.data.all Char.isDigit then
      match pyInt ds, pyInt ms, pyInt ys with
      | some d, some m, some y =>
        if validDMY d m y then some ⟨y, m, d⟩ else none
      | _, _, _ => none
    else none
  | _ => none

/-- Python `datetime.strptime(s, "%H:%M").time()`: hour and minute of one or
two digits, hour below 24, minute below 60 (`ValueError` is modelled as
`none`). -/
def parseHM (s : String) : Option (Nat × Nat) :=
  match pySplit s ":" with
  | [hs, ms] =>
    if hs.data ≠ [] && hs.data.length ≤ 2 && hs.data.all Char.isDigit &&
       ms.data ≠ [] && ms.data.length ≤ 2 && ms.data.all Char.isDigit then
      match pyInt hs, pyInt ms with
      | some h, some m => if h ≤ 23 && m ≤ 59 then some (h, m) else none
      | _, _ => none
    else none
  | _ => none

/-- The current moment (`datetime.datetime.now()`): calendar date and time of
day. Sub-second precision is folded into `sec`. -/
structure NowT where
  date : Date
  hour : Nat
  minute : Nat
  sec : Nat
deriving DecidableEq

/-- Python `date.strftime("%d/%m/%Y")`. -/
def fmtDate (d : Date) : String :=
  pad2 d.day ++ "/" ++ pad2 d.month ++ "/" ++ toString d.year

/-- The four fields extracted by the reminder regex of src/crystal.py lines
184-187: `title = group(1).strip()`, `when_str = group(2).strip()`,
`time_str = group(3)`, `am_pm_str = group(4)`. -/
structure RFields where
  title : String
  whenStr : String
  timeStr : String
  amPm : Option String
deriving DecidableEq

/-- Regex match and field extraction of `create_reminder_or_appointment`
(src/crystal.py lines 181-187), applied to the lowercased utterance. -/
def parseReminder (lower : String) : Option RFields :=
  (reSearch reminderRE lower.data).map fun g =>
    { title := pyStrip (capGet g 1)
      whenStr := pyStrip (capGet g 2)
      timeStr := capGet g 3
      amPm := capGetOpt g 4 }

/-- Date resolution of src/crystal.py lines 194-218: tomorrow / today / an
explicit `dia D/M[/Y]` (rolled to next year when already past) / a weekday
name (next occurrence, rolled a week forward when it is today and the given
time has passed). A `ValueError` (from `strptime` or `date.replace`) is the
`.error` case. -/
def resolveStartDate (now : NowT) (whenStr timeStr : String) : Except Unit Date :=
  if pyIn "amanhã" whenStr then .ok (nextDay now.date)
  else if pyIn "hoje" whenStr then .ok now.date
  else if pyIn "dia" whenStr then
    match reSearch diaRE whenStr.data with
    | some g =>
      let dateVal := capGet g 1
      let dateVal2 :=
        if (pySplit dateVal "/").length == 2 then
          dateVal ++ "/" ++ toString now.date.year
        else dateVal
      match parseDMY dateVal2 with
      | none => .error ()
      | some pd =>
        if dateLt pd now.date then
          match replaceYear pd (now.date.year + 1) with
          | none => .error ()
          | some pd2 => .ok pd2
        else .ok pd
    | none => .ok now.date
  else
    let weekdays := ["segunda-feira", "terça-feira", "quarta-feira",
      "quinta-feira", "sexta-feira", "sábado", "domingo"]
    match weekdays.indexOf? whenStr with
    | none => .ok now.date
    | some target =>
      let cur := weekdayOf now.date
      let d0 := (target + 7 - cur) % 7
      let d1 :=
        if d0 == 0 && timeStr ≠ "" then
          match parseHM (replaceAll timeStr "h" ":00") with
          | some hm =>
            if timeLe (hm.1, hm.2, 0) (now.hour, now.minute, now.sec) then d0 + 7
            else d0
          | none => d0
        else d0
      .ok (addDays now.date d1)

/-- The am/pm adjustment of src/crystal.py lines 228-231, returning the new
hour and the `am_pm_or_unknown` flag. Note that the source tests the
substrings `"pm"` and `"am"`, which the Portuguese markers do not contain. -/
def adjustHourAmPm (amPm : Option String) (hour : Nat) : Nat × String :=
  match amPm with
  | none => (hour, "UNKNOWN")
  | some s =>
    if pyIn "pm" s && hour < 12 then (hour + 12, "PM")
    else if pyIn "am" s && hour == 12 then (0, "AM")
    else (hour, pyUpper s)

/-- The marker-free PM heuristic of src/crystal.py lines 233-236: with no
am/pm marker and a start date equal to today, an hour below the current hour
and at most 12 is shifted by twelve. -/
def adjustHourHeuristic (now : NowT) (startDate : Date) (amPm : Option String)
    (hour : Nat) (flag : String) : Nat × String :=
  if amPm = none ∧ startDate = now.date then
    if hour < now.hour then
      (if hour ≤ 12 then (hour + 12, "PM") else (hour, flag))
    else (hour, flag)
  else (hour, flag)

/-- Outcome of the time-of-day block of src/crystal.py lines 221-242:
no time given, a past combined date-time, or a scheduled hour/minute with its
am/pm display flag. -/
inductive TimeOutcome where
  | past
  | sched (tod : Option (Nat × Nat)) (flag : String)
deriving DecidableEq

/-- The time-of-day block of src/crystal.py lines 221-242: normalise `Nh` and
`H:MM` to hour and minute, apply the am/pm adjustment and the PM heuristic,
build the combined date-time (a `ValueError` from `int()` or from the
`datetime` constructor is the `.error` case) and compare it with the current
moment. -/
def resolveTime (now : NowT) (startDate : Date) (timeStr : String)
    (amPm : Option String) : Except Unit TimeOutcome :=
  if timeStr = "" then .ok (.sched none "UNKNOWN")
  else
    let ts1 := replaceAll timeStr "h" ":00"
    let ts2 := if pyIn ":" ts1 then ts1 else ts1 ++ ":00"
    match pyInt ((pySplit ts2 ":").headD "") with
    | none => .error ()
    | some hour0 =>
      match (if pyIn ":" ts2 then pyInt ((pySplit ts2 ":").getD 1 "") else some 0) with
      | none => .error ()
      | some minute =>
        let p1 := adjustHourAmPm amPm hour0
        let p2 := adjustHourHeuristic now startDate amPm p1.1 p1.2
        if !validDMY startDate.day startDate.month startDate.year ||
            23 < p2.1 || 59 < minute then .error ()
        else if dtLt startDate (p2.1, minute, 0) now.date (now.hour, now.minute, now.sec) then
          .ok .past
        else .ok (.sched (some (p2.1, minute)) p2.2)

/-- Rejection message for past reminders (src/crystal.py line 242). -/
def pastMsg : String :=
  "Desculpe, não consigo criar lembretes para o passado. Por favor, especifique uma data e/ou hora futura."

/-- `ValueError` message of the reminder handler (src/crystal.py line 250). -/
def badDateMsg : String :=
  "Não entendi a data ou hora do lembrete. Por favor, especifique de forma mais clara (ex: \x27amanhã às 10h\x27, \x27dia 25/12 às 14:30\x27)."

/-- Body of `create_reminder_or_appointment` after a successful regex match
(src/crystal.py lines 189-253). -/
def computeReminder (now : NowT) (f : RFields) : String :=
  match resolveStartDate now f.whenStr f.timeStr with
  | .error _ => badDateMsg
  | .ok startDate =>
    match resolveTime now startDate f.timeStr f.amPm with
    | .error _ => badDateMsg
    | .ok .past => pastMsg
    | .ok (.sched tod flag) =>
      let dateDisplay := fmtDate startDate
      let timeDisplay :=
        match tod with
        | some hm => pad2 hm.1 ++ ":" ++ pad2 hm.2 ++ ":00"
        | none => "em algum momento do dia"
      let amPmDisplay :=
        if flag ≠ "UNKNOWN" ∧ tod.isSome then " (" ++ flag ++ ")" else ""
      "Lembrete criado: \x27" ++ pyCapitalize f.title ++ "\x27 para " ++ dateDisplay ++
        " às " ++ timeDisplay ++ amPmDisplay ++ ". (Simulado)"

/-- `create_reminder_or_appointment` (src/crystal.py lines 176-255): `None`
when the reminder regex does not match, otherwise the handler's reply. -/
def create_reminder_or_appointment (now : NowT) (input : String) : Option String :=
  (parseReminder (pyLower input)).map (computeReminder now)

/-- Regex match and group selection of the list-creation branch
(src/crystal.py lines 155-159): the raw list name (`group(1)`, falling back to
`group(2)` when empty) and the raw items string (`group(3)`). -/
def parseCreateList (lower : String) : Option (String × String) :=
  (reSearch createListRE lower.data).map fun g =>
    (if capGet g 1 ≠ "" then capGet g 1 else capGet g 2, capGet g 3)

/-- Regex match and group selection of the list-addition branch
(src/crystal.py lines 165-169): the item (`group(1)`) and the raw list name
(`group(2)`, falling back to `group(3)` when empty). -/
def parseAddList (lower : String) : Option (String × String) :=
  (reSearch addListRE lower.data).map fun g =>
    (capGet g 1, if capGet g 2 ≠ "" then capGet g 2 else capGet g 3)

/-- Item splitting of src/crystal.py line 160:
`[item.strip() for item in items_str.split(' e ') if item.strip()]`. -/
def cleanItems (itemsStr : String) : List String :=
  ((pySplit itemsStr " e ").map pyStrip).filter (· ≠ "")

/-- `create_or_add_list_item` (src/crystal.py lines 152-174): a pure function
of the utterance — no list is stored or mutated. -/
def create_or_add_list_item (input : String) : Option String :=
  let lower := pyLower input
  match parseCreateList lower with
  | some p =>
    let listName := pyStrip p.1
    let items := cleanItems p.2
    if listName = "" ∨ items = [] then
      some "Não entendi o nome da lista ou os itens. Tente \x27criar lista de compras com leite e pão\x27."
    else
      some ("Criei a lista \x27" ++ pyCapitalize listName ++ "\x27 com os itens: " ++
        joinComma items ++ ". (Simulado)")
  | none =>
    match parseAddList lower with
    | some p =>
      let itemToAdd := pyStrip p.1
      let listName := pyStrip p.2
      if itemToAdd = "" ∨ listName = "" then
        some "Não entendi o item a adicionar ou o nome da lista. Tente \x27adicionar ovos à lista de compras\x27."
      else
        some ("Adicionei \x27" ++ itemToAdd ++ "\x27 à sua lista de \x27" ++
          pyCapitalize listName ++ "\x27. (Simulado)")
    | none => none

/-- Truthiness of an optional string, as Python's `if not KEY:` on a value
that may be `None` or empty. -/
def truthy (o : Option String) : Bool :=
  match o with
  | none => false
  | some s => s ≠ ""

/-- The integer-or-string `cod` field of the weather JSON body
(`data.get("cod")` is compared both with `200` and with `"404"`). -/
inductive CodVal where
  | num (n : Int)
  | str (s : String)
  | missing
deriving DecidableEq

/-- Parsed weather response body. The temperature is modelled in tenths of a
degree so that the source's `f"{temperature:.1f}"` is exact integer
formatting. -/
structure WeatherData where
  cod : CodVal
  message : Option String
  tempTenths : Option Int
  desc : Option String

/-- Outcome of the single outbound HTTP request a wrapper makes (each wrapper
calls `requests.get` exactly once — no retry): a parsed 2xx body, an
`HTTPError` from `raise_for_status`, a `ConnectionError`, a `Timeout`, another
`RequestException`, or a `JSONDecodeError` from `.json()`. -/
inductive HttpOutcome (α : Type) where
  | ok (data : α)
  | httpError (status : Nat) (reason : String)
  | connectionError
  | timeout
  | requestError (msg : String)
  | jsonError

/-- Python `f"{t:.1f}"` on a temperature given in tenths of a degree. -/
def fmtTenths (t : Int) : String :=
  (if t < 0 then "-" else "") ++ toString (t.natAbs / 10) ++ "." ++ toString (t.natAbs % 10)

/-- Display of the `cod` field in the fallback error message
(`data.get('cod', 'N/A')`). -/
def codDisplay (c : CodVal) : String :=
  match c with
  | .num n => toString n
  | .str s => s
  | .missing => "N/A"

/-- `get_weather` (src/crystal.py lines 69-107), over the outcome of its one
outbound request. A missing `main`/`weather` field raises `KeyError`, caught
by the final `except Exception` clause. -/
def get_weather (apiKey : Option String) (city : String)
    (o : HttpOutcome WeatherData) : String :=
  if !truthy apiKey then
    "Desculpe, a chave da API do OpenWeatherMap não está configurada."
  else
    match o with
    | .ok data =>
      if data.cod == .num 200 then
        match data.tempTenths, data.desc with
        | some t, some d =>
          "O tempo em " ++ pyCapitalize city ++ " é de " ++ fmtTenths t ++
            "°C com " ++ pyCapitalize d ++ "."
        | _, _ => "Ocorreu um erro inesperado ao buscar o tempo. Tente novamente."
      else if data.cod == .str "404" then
        "Não consegui encontrar informações de tempo para essa cidade. Verifique o nome e tente novamente."
      else
        "Erro ao buscar o tempo: " ++ (data.message.getD "Erro desconhecido") ++
          ". Código: " ++ codDisplay data.cod
    | .httpError 401 _ =>
      "Erro de autenticação na API do tempo. Verifique sua OPENWEATHER_API_KEY."
    | .httpError 404 _ =>
      "Não consegui encontrar informações de tempo para essa cidade. Verifique o nome e tente novamente."
    | .httpError s r =>
      "Erro HTTP ao buscar o tempo: " ++ toString s ++ " - " ++ r
    | .connectionError =>
      "Não foi possível conectar ao serviço de tempo. Verifique sua conexão com a internet."
    | .timeout =>
      "A requisição de tempo demorou muito e expirou. Tente novamente."
    | .requestError _ =>
      "Erro de conexão ao buscar o tempo. Verifique sua internet ou tente mais tarde."
    | .jsonError =>
      "Erro ao processar a resposta do serviço de tempo. O formato dos dados está inválido."

/-- One item of a custom-search result. -/
structure SItem where
  title : Option String
  snippet : Option String
  link : Option String
  mime : Option String

/-- Parsed search response body: an `items` array, an `error` object with
optional message and code, or neither. -/
structure SearchData where
  items : Option (List SItem)
  errMessage : Option String
  errCode : Option Int
  hasErr : Bool

/-- Return value of `Google_Search`: a result list, an error string, or
Python's `None`. -/
inductive SearchReturn where
  | items (l : List SItem)
  | errStr (s : String)
  | noneV

/-- `Google_Search` (src/crystal.py lines 110-147), over the outcome of its
one outbound request. -/
def Google_Search (sKey cseId : Option String) (query : String)
    (o : HttpOutcome SearchData) : SearchReturn :=
  if !truthy sKey || !truthy cseId then
    .errStr "Desculpe, as chaves da API de busca do Google (ou o CSE ID) não estão configuradas."
  else
    match o with
    | .ok results =>
      match results.items with
      | some l => .items l
      | none =>
        if results.hasErr then
          let msg := results.errMessage.getD "Erro desconhecido da API de busca."
          let codeDisp := match results.errCode with
            | some n => toString n
            | none => "N/A"
          if results.errCode == some 403 then
            .errStr "Erro de acesso à API de busca. Verifique se sua Google Search_API_KEY e GOOGLE_CSE_ID estão corretos e se você habilitou a API Custom Search no Google Cloud."
          else
            .errStr ("Erro da API de busca: " ++ msg ++ " (Código: " ++ codeDisp ++ ")")
        else .noneV
    | .httpError 400 _ =>
      .errStr "Requisição de busca inválida. O parâmetro \x27q\x27 (query) pode estar faltando ou incorreto."
    | .httpError 403 _ =>
      .errStr "Erro de acesso à API de busca. Verifique se sua Google Search_API_KEY e GOOGLE_CSE_ID estão corretos e se você habilitou a API Custom Search no Google Cloud."
    | .httpError s r =>
      .errStr ("Erro HTTP ao realizar a busca: " ++ toString s ++ " - " ++ r)
    | .connectionError =>
      .errStr "Não foi possível conectar ao serviço de busca. Verifique sua conexão com a internet."
    | .timeout =>
      .errStr "A requisição de busca demorou muito e expirou. Tente novamente."
    | .requestError _ =>
      .errStr "Erro de conexão ao realizar a busca. Verifique sua internet ou tente mais tarde."
    | .jsonError =>
      .errStr "Erro ao processar a resposta do serviço de busca. O formato dos dados está inválido."

/-- One entry of a chat transcript (`role`/`content` for the display
transcript, `role`/`parts` for the model transcript). -/
structure GMsg where
  role : String
  text : String
deriving DecidableEq

/-- Outcome of the single LLM chat call of `get_gemini_response`. A network
timeout or connection failure inside the client library is not a
`BlockedPromptException` or an `APIError`, so it reaches the final
`except Exception` clause of the source. -/
inductive GeminiOutcome where
  | ok (text : String)
  | blockedPrompt
  | apiError (msg : String)
  | timeout
  | connectionError
  | other (msg : String)

/-- `get_gemini_response` (src/crystal.py lines 52-67), over the outcome of
its one chat call (no retry). -/
def get_gemini_response (apiKey : Option String) (promptText : String)
    (chatHistory : List GMsg) (o : GeminiOutcome) : String :=
  if !truthy apiKey then
    "Desculpe, a chave da API do Gemini não está configurada corretamente. Não posso responder no momento."
  else
    match o with
    | .ok t => t
    | .blockedPrompt =>
      "Sua solicitação foi bloqueada devido a políticas de segurança. Por favor, tente algo diferente."
    | .apiError _ =>
      "Desculpe, tive um problema ao me comunicar com a IA. Pode tentar novamente?"
    | .timeout =>
      "Desculpe, algo deu errado enquanto eu pensava. Tente novamente mais tarde."
    | .connectionError =>
      "Desculpe, algo deu errado enquanto eu pensava. Tente novamente mais tarde."
    | .other _ =>
      "Desculpe, algo deu errado enquanto eu pensava. Tente novamente mais tarde."

/-- The program's environment: the four configured secrets and, for each
outbound call a handler can make, the outcome of that call. The source spells
the two search call sites `Google Search(query)` and `(Google Search_query)`
with a stray space in the identifier; they are embedded as the evident
`Google_Search(...)` calls. -/
structure Env where
  owKey : Option String
  sKey : Option String
  cseId : Option String
  gemKey : Option String
  weatherOutcome : String → HttpOutcome WeatherData
  searchOutcome : String → HttpOutcome SearchData
  geminiOutcome : String → List GMsg → GeminiOutcome

/-- `get_news_summary` (src/crystal.py lines 257-273). -/
def get_news_summary (env : Env) (query : String) : String :=
  match Google_Search env.sKey env.cseId query (env.searchOutcome query) with
  | .errStr s => s
  | .noneV =>
    "Não encontrei notícias ou artigos sobre \x27" ++ query ++ "\x27. Tente um termo diferente."
  | .items [] =>
    "Não encontrei notícias ou artigos sobre \x27" ++ query ++ "\x27. Tente um termo diferente."
  | .items (first :: rest) =>
    let firstLink := ((first :: rest).find? fun item =>
      truthy item.link && truthy item.mime && pyIn "text/html" (item.mime.getD "")).bind
      fun item => item.link
    match firstLink with
    | some link =>
      "Encontrei notícias sobre \x27" ++ query ++ "\x27. O primeiro resultado é: \x27" ++
        (first.title.getD "Sem título") ++ "\x27 ([Link](" ++ link ++ ")). " ++
        "Se eu pudesse acessar o conteúdo, faria um resumo para você! (Simulado)"
    | none => "Não consegui encontrar um link de artigo HTML válido para resumir."

/-- `crystal_respond` (src/crystal.py lines 282-329): the intent router. -/
def crystal_respond (env : Env) (now : NowT) (user_input : String)
    (hist : List GMsg) : String :=
  let lower := pyLower user_input
  match create_or_add_list_item user_input with
  | some r => r
  | none =>
  match create_reminder_or_appointment now user_input with
  | some r => r
  | none =>
  if pyIn "notícias sobre" lower || pyIn "resumo de artigo sobre" lower ||
      pyIn "resumir artigo" lower then
    let query := pyStrip (replaceAll (replaceAll (replaceAll lower
      "notícias sobre" "") "resumo de artigo sobre" "") "resumir artigo" "")
    if query ≠ "" then get_news_summary env query
    else "Por favor, especifique sobre o que você quer notícias ou qual artigo resumir."
  else if pyIn "tempo em" lower then
    let city := pyStrip ((pySplit lower "tempo em").getLastD "")
    if city ≠ "" then get_weather env.owKey city (env.weatherOutcome city)
    else "Por favor, especifique a cidade para a qual você quer o tempo."
  else if pyIn "que dia é hoje" lower || pyIn "data de hoje" lower then
    "Hoje é " ++ fmtDate now.date ++ "."
  else if pyIn "que horas são" lower then
    "São " ++ pad2 now.hour ++ ":" ++ pad2 now.minute ++ "."
  else if pyIn "pesquisar por" lower || pyIn "pesquise por" lower ||
      pyIn "procure por" lower then
    let sq := pyStrip (replaceAll (replaceAll (replaceAll lower
      "pesquisar por" "") "pesquise por" "") "procure por" "")
    if sq ≠ "" then
      match Google_Search env.sKey env.cseId sq (env.searchOutcome sq) with
      | .items (top :: _) =>
        "Encontrei: **" ++ (top.title.getD "Sem título") ++ "** - " ++
          (top.snippet.getD "Sem descrição") ++ " ([Link](" ++
          (top.link.getD "Sem link") ++ "))"
      | .items [] =>
        "Não encontrei resultados para sua busca na internet. Tente reformular a pergunta."
      | .errStr s => s
      | .noneV =>
        "Não encontrei resultados para sua busca na internet. Tente reformular a pergunta."
    else "Por favor, especifique o que você gostaria de pesquisar na internet."
  else
    get_gemini_response env.gemKey user_input hist (env.geminiOutcome user_input hist)

/-- News-intent predicate of src/crystal.py line 295. -/
def newsPred (lower : String) : Bool :=
  pyIn "notícias sobre" lower || pyIn "resumo de artigo sobre" lower ||
    pyIn "resumir artigo" lower

/-- Weather-intent predicate of src/crystal.py line 301. -/
def weatherPred (lower : String) : Bool := pyIn "tempo em" lower

/-- Date-intent predicate of src/crystal.py line 305. -/
def datePred (lower : String) : Bool :=
  pyIn "que dia é hoje" lower || pyIn "data de hoje" lower

/-- Time-intent predicate of src/crystal.py line 308. -/
def timePred (lower : String) : Bool := pyIn "que horas são" lower

/-- Web-search-intent predicate of src/crystal.py line 311. -/
def searchPred (lower : String) : Bool :=
  pyIn "pesquisar por" lower || pyIn "pesquise por" lower || pyIn "procure por" lower

/-- News handler body (src/crystal.py lines 295-298). -/
def newsHandler (env : Env) (input : String) : String :=
  let lower := pyLower input
  let query := pyStrip (replaceAll (replaceAll (replaceAll lower
    "notícias sobre" "") "resumo de artigo sobre" "") "resumir artigo" "")
  if query ≠ "" then get_news_summary env query
  else "Por favor, especifique sobre o que você quer notícias ou qual artigo resumir."

/-- Weather handler body (src/crystal.py lines 301-304). -/
def weatherHandler (env : Env) (input : String) : String :=
  let lower := pyLower input
  let city := pyStrip ((pySplit lower "tempo em").getLastD "")
  if city ≠ "" then get_weather env.owKey city (env.weatherOutcome city)
  else "Por favor, especifique a cidade para a qual você quer o tempo."

/-- Date handler body (src/crystal.py lines 305-307). -/
def dateHandler (now : NowT) (_input : String) : String :=
  "Hoje é " ++ fmtDate now.date ++ "."

/-- Time handler body (src/crystal.py lines 308-310). -/
def timeHandler (now : NowT) (_input : String) : String :=
  "São " ++ pad2 now.hour ++ ":" ++ pad2 now.minute ++ "."

/-- Web-search handler body (src/crystal.py lines 311-326). -/
def searchHandler (env : Env) (input : String) : String :=
  let lower := pyLower input
  let sq := pyStrip (replaceAll (replaceAll (replaceAll lower
    "pesquisar por" "") "pesquise por" "") "procure por" "")
  if sq ≠ "" then
    match Google_Search env.sKey env.cseId sq (env.searchOutcome sq) with
    | .items (top :: _) =>
      "Encontrei: **" ++ (top.title.getD "Sem título") ++ "** - " ++
        (top.snippet.getD "Sem descrição") ++ " ([Link](" ++
        (top.link.getD "Sem link") ++ "))"
    | .items [] =>
      "Não encontrei resultados para sua busca na internet. Tente reformular a pergunta."
    | .errStr s => s
    | .noneV =>
      "Não encontrei resultados para sua busca na internet. Tente reformular a pergunta."
  else "Por favor, especifique o que você gostaria de pesquisar na internet."

/-- The router as the specification describes it: an explicit ordered list of
predicate-handler pairs, list commands first, then reminders, news, weather,
date, time and web search. -/
def intentChain (env : Env) (now : NowT) : List ((String → Bool) × (String → String)) :=
  [(fun s => (create_or_add_list_item s).isSome,
      fun s => (create_or_add_list_item s).getD ""),
   (fun s => (create_reminder_or_appointment now s).isSome,
      fun s => (create_reminder_or_appointment now s).getD ""),
   (fun s => newsPred (pyLower s), newsHandler env),
   (fun s => weatherPred (pyLower s), weatherHandler env),
   (fun s => datePred (pyLower s), dateHandler now),
   (fun s => timePred (pyLower s), timeHandler now),
   (fun s => searchPred (pyLower s), searchHandler env)]

/-- First-match-wins dispatch over a predicate-handler chain with a fallback:
the first predicate that holds selects the handler and no later entry is
consulted. -/
def firstMatch : List ((String → Bool) × (String → String)) → (String → String) → String → String
  | [], fb, s => fb s
  | ph :: rest, fb, s => if ph.1 s then ph.2 s else firstMatch rest fb s

/-- The router as an ordered chain with the LLM fallback at the end. -/
def respondChain (env : Env) (now : NowT) (input : String) (hist : List GMsg) : String :=
  firstMatch (intentChain env now)
    (fun s => get_gemini_response env.gemKey s hist (env.geminiOutcome s hist)) input

/-- One interaction turn of the Streamlit session (src/crystal.py lines
382-396): both transcripts get the user entry, the router answers with the
model transcript as extended by that user entry, and both transcripts get the
answer. -/
structure SessionState where
  messages : List GMsg
  gemini : List GMsg
deriving DecidableEq

/-- The `if user_input:` block of src/crystal.py lines 382-396. -/
def handleUserInput (env : Env) (now : NowT) (s : SessionState)
    (input : String) : SessionState :=
  let messages1 := s.messages ++ [⟨"user", input⟩]
  let gemini1 := s.gemini ++ [⟨"user", input⟩]
  let resp := crystal_respond env now input gemini1
  { messages := messages1 ++ [⟨"assistant", resp⟩]
    gemini := gemini1 ++ [⟨"model", resp⟩] }

/-- A sequence of interaction turns. -/
def runTurns (env : Env) (now : NowT) : SessionState → List String → SessionState
  | s, [] => s
  | s, i :: is => runTurns env now (handleUserInput env now s i) is

/-- String concatenation is associative. -/
theorem strAppendAssoc (a b c : String) : (a ++ b) ++ c = a ++ (b ++ c) :=
  congrArg String.mk (List.append_assoc a.data b.data c.data)

/-- The successor day is strictly later in Python's date order. -/
theorem dateLt_nextDay (d : Date) : dateLt d (nextDay d) = true := by
  simp only [nextDay]
  split
  · simp [dateLt]
  · split
    · simp [dateLt]
    · simp [dateLt]

/-- The successor day is a different date. -/
theorem nextDay_ne (d : Date) : nextDay d ≠ d := by
  intro h
  have hlt := dateLt_nextDay d
  rw [h] at hlt
  simp [dateLt] at hlt

/-- The successor day is not earlier than the day itself. -/
theorem dateLt_nextDay_false (d : Date) : dateLt (nextDay d) d = false := by
  have hlt := dateLt_nextDay d
  simp only [dateLt] at hlt ⊢
  simp only [Bool.or_eq_true, Bool.and_eq_true, decide_eq_true_eq, beq_iff_eq] at hlt
  simp only [Bool.or_eq_false_iff, Bool.and_eq_false_iff, decide_eq_false_iff_not, not_lt,
    beq_eq_false_iff_ne, ne_eq]
  omega

/-- C1: for every utterance, `crystal_respond` coincides with first-match-wins
dispatch over the fixed precedence chain list commands → reminder commands →
news/summary commands → weather → date → time → web search, with the LLM call
as fallback: the first matching intent produces the response and no later
handler runs. -/
theorem c1_router_is_first_match (env : Env) (now : NowT) (input : String)
    (hist : List GMsg) :
    crystal_respond env now input hist = respondChain env now input hist := by
  cases h1 : create_or_add_list_item input with
  | some r =>
    simp [crystal_respond, respondChain, intentChain, firstMatch, h1]
  | none =>
    cases h2 : create_reminder_or_appointment now input with
    | some r =>
      simp [crystal_respond, respondChain, intentChain, firstMatch, h1, h2]
    | none =>
      simp only [crystal_respond, respondChain, intentChain, firstMatch, h1, h2,
        Option.isSome_none, Bool.false_eq_true, if_false, Option.getD_none,
        newsPred, weatherPred, datePred, timePred, searchPred,
        newsHandler, weatherHandler, dateHandler, timeHandler, searchHandler]

/-- C2 counterexample: the explicit afternoon marker `da tarde` does not shift
the hour. With the current time 12/10/2026 01:00:00, the utterance
`me lembre de pagar hoje às 3 da tarde` is scheduled at 03:00 (displayed with
the flag `DA TARDE`), not at 15:00 as the claim requires. -/
theorem c2_da_tarde_not_shifted :
    create_reminder_or_appointment ⟨⟨2026, 10, 12⟩, 1, 0, 0⟩
        "me lembre de pagar hoje às 3 da tarde" =
      some "Lembrete criado: \x27Pagar\x27 para 12/10/2026 às 03:00:00 (DA TARDE). (Simulado)" ∧
    pyIn "15:00"
      "Lembrete criado: \x27Pagar\x27 para 12/10/2026 às 03:00:00 (DA TARDE). (Simulado)" = false := by
  constructor
  · rfl
  · rfl

/-- C2 amended: only the literal markers `pm` and `am` shift the parsed hour
(`pm` with an hour below 12 adds twelve; `am` with hour 12 yields zero); the
Portuguese markers `da manhã`, `da tarde` and `da noite` leave the hour
unchanged and are merely echoed uppercased, because the source tests the
substrings `"pm"`/`"am"`, which those markers do not contain. -/
theorem c2_amended_marker_shifts (h : Nat) :
    adjustHourAmPm (some "pm") h = (if h < 12 then (h + 12, "PM") else (h, "PM")) ∧
    adjustHourAmPm (some "am") h = (if h == 12 then (0, "AM") else (h, "AM")) ∧
    adjustHourAmPm (some "da manhã") h = (h, "DA MANHÃ") ∧
    adjustHourAmPm (some "da tarde") h = (h, "DA TARDE") ∧
    adjustHourAmPm (some "da noite") h = (h, "DA NOITE") := by
  have e1 : pyIn "pm" "pm" = true := rfl
  have e2 : pyIn "am" "pm" = false := rfl
  have e3 : pyIn "pm" "am" = false := rfl
  have e4 : pyIn "am" "am" = true := rfl
  have e5 : pyIn "pm" "da manhã" = false := rfl
  have e6 : pyIn "am" "da manhã" = false := rfl
  have e7 : pyIn "pm" "da tarde" = false := rfl
  have e8 : pyIn "am" "da tarde" = false := rfl
  have e9 : pyIn "pm" "da noite" = false := rfl
  have e10 : pyIn "am" "da noite" = false := rfl
  have u1 : pyUpper "pm" = "PM" := rfl
  have u2 : pyUpper "am" = "AM" := rfl
  have u3 : pyUpper "da manhã" = "DA MANHÃ" := rfl
  have u4 : pyUpper "da tarde" = "DA TARDE" := rfl
  have u5 : pyUpper "da noite" = "DA NOITE" := rfl
  refine ⟨?_, ?_, ?_, ?_, ?_⟩ <;>
    simp [adjustHourAmPm, e1, e2, e3, e4, e5, e6, e7, e8, e9, e10, u1, u2, u3, u4, u5]

/-- C3: with no am/pm marker and a start date equal to the current day, the
parsed hour is shifted by twelve (flagged PM) exactly when it is strictly
below the current hour and at most 12; otherwise hour and flag are left
unchanged. -/
theorem c3_heuristic_shift (now : NowT) (startDate : Date) (hour : Nat)
    (flag : String) (hd : startDate = now.date) :
    adjustHourHeuristic now startDate none hour flag =
      if hour < now.hour ∧ hour ≤ 12 then (hour + 12, "PM") else (hour, flag) := by
  subst hd
  unfold adjustHourHeuristic
  rw [if_pos (show (none : Option String) = none ∧ now.date = now.date from ⟨rfl, rfl⟩)]
  by_cases h1 : hour < now.hour <;> by_cases h2 : hour ≤ 12 <;> simp [h1, h2]

/-- C3 witness: at 15:00 on 12/10/2026, a marker-free reminder for today at 9
is shifted to 21 with flag PM. -/
theorem c3_heuristic_shift_witness :
    (⟨2026, 10, 12⟩ : Date) = (⟨⟨2026, 10, 12⟩, 15, 0, 0⟩ : NowT).date ∧
    adjustHourHeuristic ⟨⟨2026, 10, 12⟩, 15, 0, 0⟩ ⟨2026, 10, 12⟩ none 9 "UNKNOWN" =
      (21, "PM") := by
  refine ⟨rfl, ?_⟩
  have h := c3_heuristic_shift ⟨⟨2026, 10, 12⟩, 15, 0, 0⟩ ⟨2026, 10, 12⟩ 9 "UNKNOWN" rfl
  simpa using h

/-- A concrete environment for evaluating the router on closed inputs: all
four secrets configured, both HTTP services timing out, and an LLM that
answers `LLM`. -/
def envX : Env :=
  { owKey := some "k", sKey := some "k", cseId := some "c", gemKey := some "k"
    weatherOutcome := fun _ => .timeout
    searchOutcome := fun _ => .timeout
    geminiOutcome := fun _ _ => .ok "LLM" }

/-- C4 counterexample: a reminder request with a stated time already past but
no explicit day reference does not match the reminder regex (its day group is
mandatory), so at 23:00 the utterance `me lembre de pagar a conta às 5h` is
answered by the LLM fallback, not by the past-scheduling rejection. -/
theorem c4_no_day_reference_falls_through :
    create_reminder_or_appointment ⟨⟨2026, 10, 12⟩, 23, 0, 0⟩
        "me lembre de pagar a conta às 5h" = none ∧
    crystal_respond envX ⟨⟨2026, 10, 12⟩, 23, 0, 0⟩
        "me lembre de pagar a conta às 5h" [] = "LLM" ∧
    "LLM" ≠ pastMsg := by
  refine ⟨?_, ?_, ?_⟩
  · rfl
  · rfl
  · decide

/-- C4 amended: a reminder request that the parser does match and whose
combined date-time precedes the current moment is answered with the
past-scheduling rejection message; a request with no explicit day reference
is not matched by the parser at all and falls through to the fallback. -/
theorem c4_matched_past_is_rejected (now : NowT) (input : String) (f : RFields)
    (d : Date) (hp : parseReminder (pyLower input) = some f)
    (hd : resolveStartDate now f.whenStr f.timeStr = .ok d)
    (ht : resolveTime now d f.timeStr f.amPm = .ok .past) :
    create_reminder_or_appointment now input = some pastMsg := by
  simp [create_reminder_or_appointment, hp, computeReminder, hd, ht]

/-- C4 witness: at 15:00, `me lembre de pagar a conta hoje às 13h` resolves to
today 13:00, which is past, and is rejected. -/
theorem c4_matched_past_is_rejected_witness :
    parseReminder (pyLower "me lembre de pagar a conta hoje às 13h") =
      some ⟨"pagar a conta", "hoje", "13h", none⟩ ∧
    create_reminder_or_appointment ⟨⟨2026, 10, 12⟩, 15, 0, 0⟩
      "me lembre de pagar a conta hoje às 13h" = some pastMsg := by
  refine ⟨rfl, ?_⟩
  exact c4_matched_past_is_rejected ⟨⟨2026, 10, 12⟩, 15, 0, 0⟩
    "me lembre de pagar a conta hoje às 13h" ⟨"pagar a conta", "hoje", "13h", none⟩
    ⟨2026, 10, 12⟩ rfl rfl rfl

/-- C5: for any current time whose successor day is a representable date, the
utterance `me lembre de pagar a conta amanhã às 8h` is matched by the
reminder parser and confirmed for the day after the current date at exactly
08:00 (no rejection). -/
theorem c5_tomorrow_eight (now : NowT) (hv : validD (nextDay now.date) = true) :
    create_reminder_or_appointment now "me lembre de pagar a conta amanhã às 8h" =
      some ("Lembrete criado: \x27Pagar a conta\x27 para " ++ fmtDate (nextDay now.date) ++
        " às 08:00:00. (Simulado)") := by
  have hheu : adjustHourHeuristic now (nextDay now.date) none 8 "UNKNOWN" = (8, "UNKNOWN") := by
    unfold adjustHourHeuristic
    rw [if_neg (fun hc => nextDay_ne now.date hc.2)]
  have hv2 : validDMY (nextDay now.date).day (nextDay now.date).month (nextDay now.date).year = true := hv
  have hdt : dtLt (nextDay now.date) (8, 0, 0) now.date (now.hour, now.minute, now.sec) = false := by
    unfold dtLt
    rw [dateLt_nextDay_false, beq_eq_false_iff_ne.mpr (nextDay_ne now.date)]
    rfl
  have hrt : resolveTime now (nextDay now.date) "8h" none = .ok (.sched (some (8, 0)) "UNKNOWN") := by
    have h0 : resolveTime now (nextDay now.date) "8h" none =
        (if !validDMY (nextDay now.date).day (nextDay now.date).month (nextDay now.date).year
            || 23 < (adjustHourHeuristic now (nextDay now.date) none 8 "UNKNOWN").1
            || 59 < (0 : Nat) then (Except.error () : Except Unit TimeOutcome)
         else if dtLt (nextDay now.date)
             ((adjustHourHeuristic now (nextDay now.date) none 8 "UNKNOWN").1, 0, 0)
             now.date (now.hour, now.minute, now.sec) then Except.ok TimeOutcome.past
         else Except.ok (TimeOutcome.sched
             (some ((adjustHourHeuristic now (nextDay now.date) none 8 "UNKNOWN").1, 0))
             (adjustHourHeuristic now (nextDay now.date) none 8 "UNKNOWN").2)) := rfl
    rw [h0, hheu]
    rw [show ((8, "UNKNOWN") : Nat × String).1 = 8 from rfl,
      show ((8, "UNKNOWN") : Nat × String).2 = "UNKNOWN" from rfl]
    rw [hv2]
    rw [if_neg (by decide)]
    rw [hdt]
    rw [if_neg (by decide)]
  have hbig : create_reminder_or_appointment now "me lembre de pagar a conta amanhã às 8h" =
      some (computeReminder now ⟨"pagar a conta", "amanhã", "8h", none⟩) := rfl
  rw [hbig]
  have hcr : computeReminder now ⟨"pagar a conta", "amanhã", "8h", none⟩ =
      "Lembrete criado: \x27" ++ pyCapitalize "pagar a conta" ++ "\x27 para " ++
        fmtDate (nextDay now.date) ++ " às " ++ (pad2 8 ++ ":" ++ pad2 0 ++ ":00") ++
        "" ++ ". (Simulado)" := by
    have h1 : computeReminder now ⟨"pagar a conta", "amanhã", "8h", none⟩ =
        (match resolveTime now (nextDay now.date) "8h" none with
         | Except.error _ => badDateMsg
         | Except.ok TimeOutcome.past => pastMsg
         | Except.ok (TimeOutcome.sched tod flag) =>
           "Lembrete criado: \x27" ++ pyCapitalize "pagar a conta" ++ "\x27 para " ++
             fmtDate (nextDay now.date) ++ " às " ++
             (match tod with
              | some hm => pad2 hm.1 ++ ":" ++ pad2 hm.2 ++ ":00"
              | none => "em algum momento do dia") ++
             (if flag ≠ "UNKNOWN" ∧ tod.isSome then " (" ++ flag ++ ")" else "") ++
             ". (Simulado)") := rfl
    rw [h1, hrt]
    rfl
  rw [hcr]
  rw [show ("Lembrete criado: \x27" ++ pyCapitalize "pagar a conta" ++ "\x27 para " : String) =
      "Lembrete criado: \x27Pagar a conta\x27 para " from rfl]
  rw [show (pad2 8 ++ ":" ++ pad2 0 ++ ":00" : String) = "08:00:00" from rfl]
  generalize ("Lembrete criado: \x27Pagar a conta\x27 para " ++ fmtDate (nextDay now.date) : String) = u
  simp only [strAppendAssoc]
  rw [show (" às " ++ ("08:00:00" ++ ("" ++ ". (Simulado)")) : String) = " às 08:00:00. (Simulado)" from rfl]

/-- C5 witness: at 09:30 on 12/10/2026 the utterance is confirmed for
13/10/2026 at 08:00. -/
theorem c5_tomorrow_eight_witness :
    validD (nextDay (⟨⟨2026, 10, 12⟩, 9, 30, 0⟩ : NowT).date) = true ∧
    create_reminder_or_appointment ⟨⟨2026, 10, 12⟩, 9, 30, 0⟩
        "me lembre de pagar a conta amanhã às 8h" =
      some "Lembrete criado: \x27Pagar a conta\x27 para 13/10/2026 às 08:00:00. (Simulado)" :=
  ⟨rfl, (c5_tomorrow_eight ⟨⟨2026, 10, 12⟩, 9, 30, 0⟩ rfl).trans (by rfl)⟩

/-- C6 counterexample: an utterance containing `que dia é hoje` is not always
answered with today's date — the earlier weather intent wins. At 09:30 on
12/10/2026, `tempo em paris, que dia é hoje` contains the date phrase but is
routed to the weather handler (here timing out), not answered `Hoje é
12/10/2026.`. -/
theorem c6_date_phrase_preempted :
    pyIn "que dia é hoje" (pyLower "tempo em paris, que dia é hoje") = true ∧
    crystal_respond envX ⟨⟨2026, 10, 12⟩, 9, 30, 0⟩ "tempo em paris, que dia é hoje" [] =
      "A requisição de tempo demorou muito e expirou. Tente novamente." ∧
    crystal_respond envX ⟨⟨2026, 10, 12⟩, 9, 30, 0⟩ "tempo em paris, que dia é hoje" [] ≠
      "Hoje é 12/10/2026." := by
  refine ⟨rfl, rfl, ?_⟩
  intro h
  exact absurd (rfl.trans h) (by decide)

/-- C6 amended: an utterance containing `que dia é hoje` (in its lowercased
form) that matches none of the earlier intents — list, reminder, news and
weather — is answered with today's date as `Hoje é DD/MM/YYYY.`. -/
theorem c6_amended_date_reply (env : Env) (now : NowT) (input : String)
    (hist : List GMsg)
    (h1 : create_or_add_list_item input = none)
    (h2 : create_reminder_or_appointment now input = none)
    (h3 : newsPred (pyLower input) = false)
    (h4 : weatherPred (pyLower input) = false)
    (h5 : pyIn "que dia é hoje" (pyLower input) = true) :
    crystal_respond env now input hist = "Hoje é " ++ fmtDate now.date ++ "." := by
  simp only [newsPred] at h3
  simp only [weatherPred] at h4
  simp only [crystal_respond, h1, h2, h3, h4, h5, Bool.false_eq_true, if_false,
    Bool.true_or, if_true]

/-- C6 amended witness: `que dia é hoje?` alone is answered with the date. -/
theorem c6_amended_date_reply_witness :
    create_or_add_list_item "que dia é hoje?" = none ∧
    create_reminder_or_appointment ⟨⟨2026, 10, 12⟩, 9, 30, 0⟩ "que dia é hoje?" = none ∧
    newsPred (pyLower "que dia é hoje?") = false ∧
    weatherPred (pyLower "que dia é hoje?") = false ∧
    pyIn "que dia é hoje" (pyLower "que dia é hoje?") = true ∧
    crystal_respond envX ⟨⟨2026, 10, 12⟩, 9, 30, 0⟩ "que dia é hoje?" [] = "Hoje é 12/10/2026." :=
  ⟨rfl, rfl, rfl, rfl, rfl,
    (c6_amended_date_reply envX ⟨⟨2026, 10, 12⟩, 9, 30, 0⟩ "que dia é hoje?" []
      rfl rfl rfl rfl rfl).trans (by rfl)⟩

/-- C7: an utterance that matches no intent — no list, reminder, news,
weather, date, time or search pattern — is forwarded verbatim (original,
uncased) to the LLM wrapper together with the entire accumulated model
transcript. -/
theorem c7_fallback_verbatim (env : Env) (now : NowT) (input : String)
    (hist : List GMsg)
    (h1 : create_or_add_list_item input = none)
    (h2 : create_reminder_or_appointment now input = none)
    (h3 : newsPred (pyLower input) = false)
    (h4 : weatherPred (pyLower input) = false)
    (h5 : datePred (pyLower input) = false)
    (h6 : timePred (pyLower input) = false)
    (h7 : searchPred (pyLower input) = false) :
    crystal_respond env now input hist =
      get_gemini_response env.gemKey input hist (env.geminiOutcome input hist) := by
  simp only [newsPred] at h3
  simp only [weatherPred] at h4
  simp only [datePred] at h5
  simp only [timePred] at h6
  simp only [searchPred] at h7
  simp only [crystal_respond, h1, h2, h3, h4, h5, h6, h7, Bool.false_eq_true, if_false]

/-- C7 witness: `olá, tudo bem?` matches nothing and is answered by the LLM
wrapper on the original text and full history. -/
theorem c7_fallback_verbatim_witness :
    create_or_add_list_item "olá, tudo bem?" = none ∧
    create_reminder_or_appointment ⟨⟨2026, 10, 12⟩, 9, 30, 0⟩ "olá, tudo bem?" = none ∧
    crystal_respond envX ⟨⟨2026, 10, 12⟩, 9, 30, 0⟩ "olá, tudo bem?" [⟨"user", "oi"⟩] =
      get_gemini_response envX.gemKey "olá, tudo bem?" [⟨"user", "oi"⟩]
        (envX.geminiOutcome "olá, tudo bem?" [⟨"user", "oi"⟩]) :=
  ⟨rfl, rfl,
    c7_fallback_verbatim envX ⟨⟨2026, 10, 12⟩, 9, 30, 0⟩ "olá, tudo bem?" [⟨"user", "oi"⟩]
      rfl rfl rfl rfl rfl rfl rfl⟩

/-- Appending strings appends their character lists. -/
theorem strDataAppend (a b : String) : (a ++ b).data = a.data ++ b.data := rfl

/-- A member of a list is a substring of its comma join. -/
theorem mem_joinComma_infix (x : String) (l : List String) (h : x ∈ l) :
    x.data <:+: (joinComma l).data := by
  induction l with
  | nil => cases h
  | cons y ys ih =>
    cases ys with
    | nil =>
      rcases List.mem_singleton.mp h with rfl
      exact List.infix_rfl
    | cons z zs =>
      rcases List.mem_cons.mp h with rfl | h2
      · exact ⟨[], ", ".data ++ (joinComma (z :: zs)).data, by
          simp [joinComma, strDataAppend, List.append_assoc]⟩
      · exact (ih h2).trans ⟨(y ++ ", ").data, [], by
          simp [joinComma, strDataAppend]⟩

/-- C8 counterexample: for the lowercase utterance
`criar lista de mercado com leite e pão` the supplied list name `mercado` is
not contained in the confirmation — the handler capitalises it to `Mercado`. -/
theorem c8_supplied_name_not_contained :
    create_or_add_list_item "criar lista de mercado com leite e pão" =
      some "Criei a lista \x27Mercado\x27 com os itens: leite, pão. (Simulado)" ∧
    pyIn "mercado"
      "Criei a lista \x27Mercado\x27 com os itens: leite, pão. (Simulado)" = false := by
  constructor
  · rfl
  · rfl

/-- C8 amended: for every list-creation utterance matched by the handler with
a nonempty parsed name and item list, the confirmation contains the parsed
list name with its first letter capitalised and every parsed item verbatim
(name and items come from the lowercased utterance); the handler is a pure
function of the utterance, so no list state is stored or mutated. -/
theorem c8_confirmation_contains (input nameRaw itemsStr : String)
    (hp : parseCreateList (pyLower input) = some (nameRaw, itemsStr))
    (hn : pyStrip nameRaw ≠ "")
    (hi : cleanItems itemsStr ≠ []) :
    ∃ out, create_or_add_list_item input = some out ∧
      pyIn (pyCapitalize (pyStrip nameRaw)) out = true ∧
      ∀ it ∈ cleanItems itemsStr, pyIn it out = true := by
  refine ⟨"Criei a lista \x27" ++ pyCapitalize (pyStrip nameRaw) ++ "\x27 com os itens: " ++
    joinComma (cleanItems itemsStr) ++ ". (Simulado)", ?_, ?_, ?_⟩
  · simp only [create_or_add_list_item, hp]
    rw [if_neg (by push_neg; exact ⟨hn, hi⟩)]
  · exact decide_eq_true ⟨"Criei a lista \x27".data,
      ("\x27 com os itens: ".data ++ (joinComma (cleanItems itemsStr)).data) ++ ". (Simulado)".data,
      by simp [strDataAppend, List.append_assoc]⟩
  · intro it hit
    have h1 : it.data <:+: (joinComma (cleanItems itemsStr)).data :=
      mem_joinComma_infix it (cleanItems itemsStr) hit
    have h2 : (joinComma (cleanItems itemsStr)).data <:+:
        ("Criei a lista \x27" ++ pyCapitalize (pyStrip nameRaw) ++ "\x27 com os itens: " ++
          joinComma (cleanItems itemsStr) ++ ". (Simulado)").data :=
      ⟨("Criei a lista \x27".data ++ (pyCapitalize (pyStrip nameRaw)).data) ++
          "\x27 com os itens: ".data,
        ". (Simulado)".data, by simp [strDataAppend, List.append_assoc]⟩
    exact decide_eq_true (h1.trans h2)

/-- C8 amended witness: `criar lista de compras com leite e pão` yields a
confirmation containing `Compras`, `leite` and `pão`. -/
theorem c8_confirmation_contains_witness :
    parseCreateList (pyLower "criar lista de compras com leite e pão") =
      some ("compras", "leite e pão") ∧
    ∃ out, create_or_add_list_item "criar lista de compras com leite e pão" = some out ∧
      pyIn (pyCapitalize (pyStrip "compras")) out = true ∧
      ∀ it ∈ cleanItems "leite e pão", pyIn it out = true :=
  ⟨rfl, c8_confirmation_contains "criar lista de compras com leite e pão" "compras"
    "leite e pão" rfl (by decide) (by decide)⟩

/-- C9: with configured keys, a timeout or a connection failure of the single
outbound call makes each of the three wrappers — weather, web search, LLM
chat — return its documented apology string (for the LLM wrapper both
failures reach the generic `except Exception` apology); each wrapper takes
the outcome of exactly one call, so none retries. -/
theorem c9_transport_failures_apologise (k1 k2 k3 k4 city q prompt : String)
    (hist : List GMsg) (hk1 : k1 ≠ "") (hk2 : k2 ≠ "") (hk3 : k3 ≠ "")
    (hk4 : k4 ≠ "") :
    get_weather (some k1) city .timeout =
      "A requisição de tempo demorou muito e expirou. Tente novamente." ∧
    get_weather (some k1) city .connectionError =
      "Não foi possível conectar ao serviço de tempo. Verifique sua conexão com a internet." ∧
    Google_Search (some k2) (some k3) q .timeout =
      .errStr "A requisição de busca demorou muito e expirou. Tente novamente." ∧
    Google_Search (some k2) (some k3) q .connectionError =
      .errStr "Não foi possível conectar ao serviço de busca. Verifique sua conexão com a internet." ∧
    get_gemini_response (some k4) prompt hist .timeout =
      "Desculpe, algo deu errado enquanto eu pensava. Tente novamente mais tarde." ∧
    get_gemini_response (some k4) prompt hist .connectionError =
      "Desculpe, algo deu errado enquanto eu pensava. Tente novamente mais tarde." := by
  have t1 : truthy (some k1) = true := decide_eq_true hk1
  have t2 : truthy (some k2) = true := decide_eq_true hk2
  have t3 : truthy (some k3) = true := decide_eq_true hk3
  have t4 : truthy (some k4) = true := decide_eq_true hk4
  refine ⟨?_, ?_, ?_, ?_, ?_, ?_⟩ <;>
    simp [get_weather, Google_Search, get_gemini_response, t1, t2, t3, t4]

/-- C9 witness: the apology strings at concrete keys and inputs. -/
theorem c9_transport_failures_apologise_witness :
    ("k" : String) ≠ "" ∧
    get_weather (some "k") "paris" .timeout =
      "A requisição de tempo demorou muito e expirou. Tente novamente." ∧
    get_gemini_response (some "k") "oi" [] .connectionError =
      "Desculpe, algo deu errado enquanto eu pensava. Tente novamente mais tarde." := by
  have h := c9_transport_failures_apologise "k" "k" "c" "k" "paris" "bolo" "oi" []
    (by decide) (by decide) (by decide) (by decide)
  exact ⟨by decide, h.1, h.2.2.2.2.2⟩

/-- C10: each interaction turn appends exactly one user entry followed by one
assistant entry to the display transcript and exactly one user entry followed
by one model entry to the model transcript (both carrying the same response
computed from the model transcript extended by the user entry), so after any
number of turns both transcripts have grown by the same count,
`2 × (number of turns)`. -/
theorem c10_transcripts_lockstep (env : Env) (now : NowT) (s : SessionState)
    (input : String) (inputs : List String) :
    (handleUserInput env now s input).messages =
      s.messages ++ [⟨"user", input⟩,
        ⟨"assistant", crystal_respond env now input (s.gemini ++ [⟨"user", input⟩])⟩] ∧
    (handleUserInput env now s input).gemini =
      s.gemini ++ [⟨"user", input⟩,
        ⟨"model", crystal_respond env now input (s.gemini ++ [⟨"user", input⟩])⟩] ∧
    (runTurns env now s inputs).messages.length = s.messages.length + 2 * inputs.length ∧
    (runTurns env now s inputs).gemini.length = s.gemini.length + 2 * inputs.length := by
  have key : ∀ (l : List String) (st : SessionState),
      (runTurns env now st l).messages.length = st.messages.length + 2 * l.length ∧
      (runTurns env now st l).gemini.length = st.gemini.length + 2 * l.length := by
    intro l
    induction l with
    | nil => intro st; simp [runTurns]
    | cons i is ih =>
      intro st
      have h := ih (handleUserInput env now st i)
      simp only [runTurns]
      constructor
      · rw [h.1]
        simp [handleUserInput]
        omega
      · rw [h.2]
        simp [handleUserInput]
        omega
  refine ⟨?_, ?_, (key inputs s).1, (key inputs s).2⟩ <;>
    simp [handleUserInput]
